import Mathlib

/-!
Verification development for the qgis-plugin-template repository.

The repository is a QGIS plugin consisting of a plugin controller
(`plugin_template.py`), a sample dockable panel (`dialogs/sample_dock.py`)
and a settings dockable panel (`dialogs/settings_dock.py`).  This file
gives a shallow embedding of the state and operations of those modules:
widget state is carried explicitly, the QSettings preference store is a
partial map from key strings to typed values, Python exceptions are
modelled with `Except` or explicit error components, and host (Qt/QGIS)
callbacks such as `visibilityChanged` are modelled as the synchronous
state updates they perform.
-/

/-! ## Preference store (QSettings)

`QSettings` is modelled as a partial map from key strings to typed
values.  `settings.value(key, default, type=t)` returns the stored value
when a value of the requested type is stored, and the supplied default
when the key is unset.  (Cross-type coercion never arises in this
plugin: every key is written and read with one fixed type.) -/

inductive SettingValue where
  | b (x : Bool)
  | i (x : Int)
  | f (x : ℚ)
  | s (x : String)
deriving DecidableEq

def Store : Type := String → Option SettingValue

def emptyStore : Store := fun _ => none

def Store.setValue (st : Store) (k : String) (v : SettingValue) : Store :=
  fun q => if q = k then some v else st q

def qsettingsBool (st : Store) (k : String) (d : Bool) : Bool :=
  match st k with
  | some (.b x) => x
  | some _ => d
  | none => d

def qsettingsInt (st : Store) (k : String) (d : Int) : Int :=
  match st k with
  | some (.i x) => x
  | some _ => d
  | none => d

def qsettingsFloat (st : Store) (k : String) (d : ℚ) : ℚ :=
  match st k with
  | some (.f x) => x
  | some _ => d
  | none => d

def qsettingsStr (st : Store) (k : String) (d : String) : String :=
  match st k with
  | some (.s x) => x
  | some _ => d
  | none => d

/-! ## Widget setters

The settings panel stores its in-memory state in Qt input widgets, whose
setters are not the identity on out-of-range arguments:

* `QComboBox.setCurrentIndex i` selects `i` when `0 ≤ i < count` and
  otherwise leaves no selection (index `-1`);
* `QSpinBox.setValue v` clamps `v` to the configured `[lo, hi]` range;
* `QDoubleSpinBox.setValue v` clamps to the range and rounds to the
  configured number of decimals (two decimals for the tolerance field).
-/

def setCurrentIndex (count : Nat) (i : Int) : Int :=
  if 0 ≤ i ∧ i < count then i else -1

def setSpinValue (lo hi v : Int) : Int :=
  max lo (min hi v)

def roundTwoDecimals (q : ℚ) : ℚ :=
  (round (q * 100) : ℚ) / 100

def setDoubleSpinValue (lo hi q : ℚ) : ℚ :=
  roundTwoDecimals (max lo (min hi q))

/-! ## Settings panel state (`SettingsDockWidget`)

The fifteen settings fields, holding exactly the widget state of the
panel: check boxes as `Bool`, combo boxes as their current index, spin
boxes as their value, line edits as their text. -/

structure SettingsFields where
  auto_load : Bool
  notifications : Bool
  default_action : Int
  language : Int
  theme : Int
  font_size : Int
  max_threads : Int
  chunk_size : Int
  memory_limit : Int
  tolerance : ℚ
  debug : Bool
  log_level : Int
  output_dir : String
  temp_dir : String
  models_dir : String
deriving DecidableEq

/-- `SettingsDockWidget._load_settings`: populate every field from the
store, with the defaults of the source, through the widget setters.
Combo box counts come from `_setup_ui`: default action has 3 items,
language 5, theme 3, log level 4; spin ranges are font 8..24, threads
1..32, chunk 256..4096, memory 256..16384, tolerance 0.0..10.0. -/
def _load_settings (st : Store) : SettingsFields where
  auto_load := qsettingsBool st "PluginTemplate/auto_load" true
  notifications := qsettingsBool st "PluginTemplate/notifications" true
  default_action := setCurrentIndex 3 (qsettingsInt st "PluginTemplate/default_action" 0)
  language := setCurrentIndex 5 (qsettingsInt st "PluginTemplate/language" 0)
  theme := setCurrentIndex 3 (qsettingsInt st "PluginTemplate/theme" 0)
  font_size := setSpinValue 8 24 (qsettingsInt st "PluginTemplate/font_size" 10)
  max_threads := setSpinValue 1 32 (qsettingsInt st "PluginTemplate/max_threads" 4)
  chunk_size := setSpinValue 256 4096 (qsettingsInt st "PluginTemplate/chunk_size" 512)
  memory_limit := setSpinValue 256 16384 (qsettingsInt st "PluginTemplate/memory_limit" 4096)
  tolerance := setDoubleSpinValue 0 10 (qsettingsFloat st "PluginTemplate/tolerance" (1/2))
  debug := qsettingsBool st "PluginTemplate/debug" false
  log_level := setCurrentIndex 4 (qsettingsInt st "PluginTemplate/log_level" 2)
  output_dir := qsettingsStr st "PluginTemplate/output_dir" ""
  temp_dir := qsettingsStr st "PluginTemplate/temp_dir" ""
  models_dir := qsettingsStr st "PluginTemplate/models_dir" ""

/-- `SettingsDockWidget._save_settings`: write every field to the store
under the fixed `PluginTemplate/` key prefix (then `sync()`, a pure
durability hint with no effect on the store's contents). -/
def _save_settings (f : SettingsFields) (st : Store) : Store :=
  let st := st.setValue "PluginTemplate/auto_load" (.b f.auto_load)
  let st := st.setValue "PluginTemplate/notifications" (.b f.notifications)
  let st := st.setValue "PluginTemplate/default_action" (.i f.default_action)
  let st := st.setValue "PluginTemplate/language" (.i f.language)
  let st := st.setValue "PluginTemplate/theme" (.i f.theme)
  let st := st.setValue "PluginTemplate/font_size" (.i f.font_size)
  let st := st.setValue "PluginTemplate/max_threads" (.i f.max_threads)
  let st := st.setValue "PluginTemplate/chunk_size" (.i f.chunk_size)
  let st := st.setValue "PluginTemplate/memory_limit" (.i f.memory_limit)
  let st := st.setValue "PluginTemplate/tolerance" (.f f.tolerance)
  let st := st.setValue "PluginTemplate/debug" (.b f.debug)
  let st := st.setValue "PluginTemplate/log_level" (.i f.log_level)
  let st := st.setValue "PluginTemplate/output_dir" (.s f.output_dir)
  let st := st.setValue "PluginTemplate/temp_dir" (.s f.temp_dir)
  let st := st.setValue "PluginTemplate/models_dir" (.s f.models_dir)
  st

/-- The default field values which `_reset_defaults` installs, written
through the same widget setters the source calls. -/
def defaultFields : SettingsFields where
  auto_load := true
  notifications := true
  default_action := setCurrentIndex 3 0
  language := setCurrentIndex 5 0
  theme := setCurrentIndex 3 0
  font_size := setSpinValue 8 24 10
  max_threads := setSpinValue 1 32 4
  chunk_size := setSpinValue 256 4096 512
  memory_limit := setSpinValue 256 16384 4096
  tolerance := setDoubleSpinValue 0 10 (1/2)
  debug := false
  log_level := setCurrentIndex 4 2
  output_dir := ""
  temp_dir := ""
  models_dir := ""

/-- `SettingsDockWidget._reset_defaults`: shows a yes/no confirmation
dialog (`confirm` is the user's answer); on decline it returns at once,
on confirmation it sets every widget to its default value.  No store
key is touched on either path. -/
def _reset_defaults (confirm : Bool) (f : SettingsFields) (st : Store) :
    SettingsFields × Store :=
  if confirm then (defaultFields, st) else (f, st)

/-- The field values reachable through the panel's input widgets: combo
indices within their item counts, spin values within their configured
ranges, the tolerance within range and carrying at most two decimals
(`QDoubleSpinBox` with `setDecimals(2)` holds such values only). -/
def inRange (f : SettingsFields) : Prop :=
  0 ≤ f.default_action ∧ f.default_action < 3 ∧
  0 ≤ f.language ∧ f.language < 5 ∧
  0 ≤ f.theme ∧ f.theme < 3 ∧
  8 ≤ f.font_size ∧ f.font_size ≤ 24 ∧
  1 ≤ f.max_threads ∧ f.max_threads ≤ 32 ∧
  256 ≤ f.chunk_size ∧ f.chunk_size ≤ 4096 ∧
  256 ≤ f.memory_limit ∧ f.memory_limit ≤ 16384 ∧
  0 ≤ f.tolerance ∧ f.tolerance ≤ 10 ∧
  0 ≤ f.log_level ∧ f.log_level < 4 ∧
  (f.tolerance * 100).den = 1

instance (f : SettingsFields) : Decidable (inRange f) := by
  unfold inRange; infer_instance

lemma setCurrentIndex_eq_self (count : Nat) (i : Int)
    (h1 : 0 ≤ i) (h2 : i < count) : setCurrentIndex count i = i := by
  simp [setCurrentIndex, h1, h2]

lemma setSpinValue_eq_self (lo hi v : Int) (h1 : lo ≤ v) (h2 : v ≤ hi) :
    setSpinValue lo hi v = v := by
  simp only [setSpinValue]
  omega

lemma roundTwoDecimals_eq_self (q : ℚ) (h : (q * 100).den = 1) :
    roundTwoDecimals q = q := by
  have hnum : ((q * 100).num : ℚ) = q * 100 := by
    rw [← Rat.den_eq_one_iff]; exact h
  unfold roundTwoDecimals
  rw [← hnum, round_intCast, hnum]
  field_simp

lemma setDoubleSpinValue_eq_self (q : ℚ) (h0 : 0 ≤ q) (h10 : q ≤ 10)
    (hden : (q * 100).den = 1) : setDoubleSpinValue 0 10 q = q := by
  unfold setDoubleSpinValue
  rw [min_eq_right h10, max_eq_right h0]
  exact roundTwoDecimals_eq_self q hden

/-- Round-trip of the fifteen settings fields: saving any in-range field
assignment and loading over the resulting store returns exactly the
saved assignment.  Shared by the settings-panel claims. -/
lemma load_after_save (f : SettingsFields) (st : Store) (h : inRange f) :
    _load_settings (_save_settings f st) = f := by
  obtain ⟨hda0, hda1, hl0, hl1, ht0, ht1, hf0, hf1, hm0, hm1, hc0, hc1,
    hmem0, hmem1, htol0, htol1, hll0, hll1, hden⟩ := h
  have hlookup : _load_settings (_save_settings f st) =
      { auto_load := f.auto_load
        notifications := f.notifications
        default_action := setCurrentIndex 3 f.default_action
        language := setCurrentIndex 5 f.language
        theme := setCurrentIndex 3 f.theme
        font_size := setSpinValue 8 24 f.font_size
        max_threads := setSpinValue 1 32 f.max_threads
        chunk_size := setSpinValue 256 4096 f.chunk_size
        memory_limit := setSpinValue 256 16384 f.memory_limit
        tolerance := setDoubleSpinValue 0 10 f.tolerance
        debug := f.debug
        log_level := setCurrentIndex 4 f.log_level
        output_dir := f.output_dir
        temp_dir := f.temp_dir
        models_dir := f.models_dir } := rfl
  rw [hlookup, setCurrentIndex_eq_self 3 f.default_action hda0 hda1,
    setCurrentIndex_eq_self 5 f.language hl0 hl1,
    setCurrentIndex_eq_self 3 f.theme ht0 ht1,
    setSpinValue_eq_self 8 24 f.font_size hf0 hf1,
    setSpinValue_eq_self 1 32 f.max_threads hm0 hm1,
    setSpinValue_eq_self 256 4096 f.chunk_size hc0 hc1,
    setSpinValue_eq_self 256 16384 f.memory_limit hmem0 hmem1,
    setDoubleSpinValue_eq_self f.tolerance htol0 htol1 hden,
    setCurrentIndex_eq_self 4 f.log_level hll0 hll1]

lemma halfTimes100_den : ((1/2 : ℚ) * 100).den = 1 := by
  have h50 : (1/2 : ℚ) * 100 = ((50 : ℤ) : ℚ) := by norm_num
  rw [h50, Rat.den_intCast]

lemma defaultTolerance_eq : setDoubleSpinValue 0 10 (1/2) = 1/2 :=
  setDoubleSpinValue_eq_self (1/2) (by norm_num) (by norm_num) halfTimes100_den

lemma defaultFields_eq :
    defaultFields = ⟨true, true, 0, 0, 0, 10, 4, 512, 4096, 1/2, false, 2, "", "", ""⟩ := by
  unfold defaultFields
  rw [defaultTolerance_eq]
  norm_num [setCurrentIndex, setSpinValue]

/-- Claim C1: for each of the 15 settings fields, calling `save()` on
the settings panel and then `load()` on a freshly constructed settings
panel over the same preference store yields exactly the value that was
saved, for every assignment of in-range field values. -/
theorem c1_save_load_roundtrip (f : SettingsFields) (st : Store)
    (h : inRange f) : _load_settings (_save_settings f st) = f :=
  load_after_save f st h

/-- Concrete field assignment of the spec's settings scenario:
chunk-size 1024 and memory-limit 8192, all other fields at defaults. -/
def scenarioFields : SettingsFields :=
  { defaultFields with chunk_size := 1024, memory_limit := 8192 }

lemma scenarioFields_eq :
    scenarioFields = ⟨true, true, 0, 0, 0, 10, 4, 1024, 8192, 1/2, false, 2, "", "", ""⟩ := by
  simp only [scenarioFields, defaultFields_eq]

/-- Witness for C1, at the spec's concrete scenario: saving with
chunk-size 1024 and memory-limit 8192 and reloading on a fresh panel
yields chunk-size 1024 and memory-limit 8192 again. -/
theorem c1_save_load_roundtrip_witness :
    inRange scenarioFields ∧
    _load_settings (_save_settings scenarioFields emptyStore) = scenarioFields ∧
    (_load_settings (_save_settings scenarioFields emptyStore)).chunk_size = 1024 ∧
    (_load_settings (_save_settings scenarioFields emptyStore)).memory_limit = 8192 := by
  have h : inRange scenarioFields := by
    rw [scenarioFields_eq]
    unfold inRange
    norm_num
  have hr := c1_save_load_roundtrip scenarioFields emptyStore h
  exact ⟨h, hr, by rw [hr]; rfl, by rw [hr]; rfl⟩

lemma scenarioFields_inRange : inRange scenarioFields := by
  rw [scenarioFields_eq]
  unfold inRange
  norm_num

/-- Claim C5: `reset_to_defaults` on the settings panel is in-memory
only: on confirmation it sets every in-memory field to its default
without writing any key to the preference store, so a subsequent
`load()` with no intervening `save()` restores the previously saved
values rather than the defaults; on decline neither the fields nor the
store change. -/
theorem c5_reset_in_memory_only (g f : SettingsFields) (st0 : Store)
    (confirm : Bool) (h : inRange g) :
    (_reset_defaults confirm f (_save_settings g st0)).2 = _save_settings g st0 ∧
    (confirm = true →
      (_reset_defaults confirm f (_save_settings g st0)).1 = defaultFields) ∧
    (confirm = false →
      (_reset_defaults confirm f (_save_settings g st0)).1 = f) ∧
    _load_settings (_reset_defaults confirm f (_save_settings g st0)).2 = g := by
  cases confirm
  · exact ⟨rfl, by simp, fun _ => rfl, load_after_save g st0 h⟩
  · exact ⟨rfl, fun _ => rfl, by simp, load_after_save g st0 h⟩

/-- Witness for C5: with chunk-size 1024 and memory-limit 8192 saved, a
confirmed reset leaves the store untouched and the following `load()`
yields the saved values (1024 and 8192, not 512 and 4096). -/
theorem c5_reset_in_memory_only_witness :
    (_reset_defaults true defaultFields (_save_settings scenarioFields emptyStore)).2
        = _save_settings scenarioFields emptyStore ∧
    _load_settings
        (_reset_defaults true defaultFields (_save_settings scenarioFields emptyStore)).2
        = scenarioFields ∧
    scenarioFields.chunk_size = 1024 ∧ defaultFields.chunk_size = 512 := by
  obtain ⟨h1, _, _, h4⟩ := c5_reset_in_memory_only scenarioFields defaultFields
    emptyStore true scenarioFields_inRange
  exact ⟨h1, h4, rfl, by rw [defaultFields_eq]⟩

/-! ## Plugin controller (`PluginTemplate`)

States of the `self.toolbar` Python attribute: `None` (constructor),
a live `QToolBar` (after `initGui`), or removed entirely by the
`del self.toolbar` statement in `unload` — reading a removed attribute
raises `AttributeError`. -/

inductive PyErr where
  | typeError
  | runtimeError
  | attributeError
deriving DecidableEq

inductive ToolbarAttr where
  | pyNone
  | toolbarObj
  | attrDeleted
deriving DecidableEq

/-- Controller state of `PluginTemplate`, together with the host-side
registrations the claims speak about: `hostDocks` counts dock widgets
currently added to the host dock area, `hostToolbars` and `hostMenus`
the toolbar and menu added to the main window. -/
structure PluginState where
  actions : List String
  menuCreated : Bool
  toolbar : ToolbarAttr
  sampleDockAssigned : Bool
  settingsDockAssigned : Bool
  hostDocks : Nat
  hostToolbars : Nat
  hostMenus : Nat
deriving DecidableEq

def initialState : PluginState :=
  { actions := [], menuCreated := false, toolbar := .pyNone,
    sampleDockAssigned := false, settingsDockAssigned := false,
    hostDocks := 0, hostToolbars := 0, hostMenus := 0 }

/-- `PluginTemplate.initGui`: creates the menu and toolbar, adds them to
the host main window, and registers the four actions (two checkable
panel toggles plus the menu-only update and about entries). -/
def initGui (s : PluginState) : PluginState :=
  { s with
    menuCreated := true, hostMenus := s.hostMenus + 1,
    toolbar := .toolbarObj, hostToolbars := s.hostToolbars + 1,
    actions := s.actions ++
      ["Sample Panel", "Settings Panel", "Check for Updates...",
        "About Plugin Template"] }

/-- The successful first `toggle_sample_dock`: assigns `_sample_dock`
and adds it to the host dock area. -/
def openSampleDock (s : PluginState) : PluginState :=
  { s with sampleDockAssigned := true, hostDocks := s.hostDocks + 1 }

/-- The successful first `toggle_settings_dock`: assigns
`_settings_dock` and adds it to the host dock area. -/
def openSettingsDock (s : PluginState) : PluginState :=
  { s with settingsDockAssigned := true, hostDocks := s.hostDocks + 1 }

/-- `PluginTemplate.unload`, step for step:
1. each assigned dock is removed from the host and its reference reset
   to `None`;
2. the `for action in self.actions` loop calls
   `iface.removePluginMenu` per action (the actions were registered on
   `self.menu` directly, so nothing host-side changes) and, crucially,
   never empties `self.actions`;
3. `if self.toolbar:` reads the attribute — an `AttributeError` when a
   previous `unload` already executed `del self.toolbar`; on a live
   toolbar the `del` removes the attribute (without detaching the
   toolbar from the host main window);
4. `if self.menu:` calls `deleteLater` on the menu, which releases it
   from the host menu bar; `self.menu` itself is not reset. -/
def unload (s : PluginState) : Except PyErr PluginState :=
  let s := if s.sampleDockAssigned then
      { s with sampleDockAssigned := false, hostDocks := s.hostDocks - 1 }
    else s
  let s := if s.settingsDockAssigned then
      { s with settingsDockAssigned := false, hostDocks := s.hostDocks - 1 }
    else s
  match s.toolbar with
  | .attrDeleted => .error .attributeError
  | .pyNone =>
      .ok (if s.menuCreated then { s with hostMenus := s.hostMenus - 1 } else s)
  | .toolbarObj =>
      let s := { s with toolbar := .attrDeleted }
      .ok (if s.menuCreated then { s with hostMenus := s.hostMenus - 1 } else s)

/-- Claim C2 fails on the code: after `initGui` and opening both docks,
the first `unload` succeeds but leaves all four action records in
`self.actions` (and the toolbar still attached to the host), and the
second `unload` raises `AttributeError`, because the first one ran
`del self.toolbar` and `if self.toolbar:` then reads a deleted
attribute.  The first conjunct evaluates the code at the failing input;
the second shows the raise. -/
theorem c2_unload_twice_raises :
    (unload (openSettingsDock (openSampleDock (initGui initialState)))).map
        (fun s => (s.hostDocks, s.actions.length, s.hostToolbars)) =
      Except.ok (0, 4, 1) ∧
    Except.bind (unload (openSettingsDock (openSampleDock (initGui initialState))))
        unload = Except.error PyErr.attributeError := by
  exact ⟨rfl, rfl⟩

/-! ## First toggle with a construction failure (C3)

`toggle_sample_dock` / `toggle_settings_dock` on an uninstantiated
panel run a six-step sequence inside one `try` block:
step 0 imports the dialog module and runs the panel constructor,
step 1 `setObjectName`, step 2 connects `visibilityChanged`,
step 3 `addDockWidget`, step 4 `show()` (whose `visibilityChanged`
callback re-checks the action), step 5 `raise_()`.
`failAt = some k` means step `k` raises; the `except` branch shows a
blocking error dialog and unchecks the action.  Clicking the checkable
action toggles its checked state to `true` before the handler runs. -/

structure ToggleState where
  dockAssigned : Bool
  checked : Bool
  dialogShown : Bool
deriving DecidableEq

def handleConstructExc (s : ToggleState) : ToggleState :=
  { s with dialogShown := true, checked := false }

def toggle_sample_dock_first (failAt : Option Nat) : ToggleState :=
  let s : ToggleState :=
    { dockAssigned := false, checked := true, dialogShown := false }
  if failAt = some 0 then handleConstructExc s else
  let s := { s with dockAssigned := true }
  if failAt = some 1 then handleConstructExc s else
  if failAt = some 2 then handleConstructExc s else
  if failAt = some 3 then handleConstructExc s else
  if failAt = some 4 then handleConstructExc s else
  let s := { s with checked := true }
  if failAt = some 5 then handleConstructExc s else
  s

def toggle_settings_dock_first (failAt : Option Nat) : ToggleState :=
  let s : ToggleState :=
    { dockAssigned := false, checked := true, dialogShown := false }
  if failAt = some 0 then handleConstructExc s else
  let s := { s with dockAssigned := true }
  if failAt = some 1 then handleConstructExc s else
  if failAt = some 2 then handleConstructExc s else
  if failAt = some 3 then handleConstructExc s else
  if failAt = some 4 then handleConstructExc s else
  let s := { s with checked := true }
  if failAt = some 5 then handleConstructExc s else
  s

/-- Counterexample to claim C3 as stated: when the exception is raised
by `addDockWidget` (step 3), the error dialog is shown and the toggle
is unchecked, but `self._sample_dock` was already assigned before the
raise, so the controller still holds a panel instance — the state does
not remain uninstantiated. -/
theorem c3_failure_keeps_instance_counterexample :
    ¬ (toggle_sample_dock_first (some 3)).dockAssigned = false ∧
    (toggle_sample_dock_first (some 3)).dialogShown = true ∧
    (toggle_sample_dock_first (some 3)).checked = false := by
  decide

/-- Claim C3 as amended: for either panel, an exception at any step of
the first toggle's construction sequence shows a blocking error dialog
and reverts the toggle control to unchecked; the panel state remains
uninstantiated exactly when the exception comes from the dialog import
or panel constructor itself (step 0) — an exception in a later step
leaves the partially initialized instance stored in the controller. -/
theorem c3_construction_failure_amended :
    ∀ k : Fin 6,
      (toggle_sample_dock_first (some k.val)).dialogShown = true ∧
      (toggle_sample_dock_first (some k.val)).checked = false ∧
      (toggle_sample_dock_first (some k.val)).dockAssigned = decide (0 < k.val) ∧
      toggle_settings_dock_first (some k.val) = toggle_sample_dock_first (some k.val) := by
  decide

/-! ## Toggle/visibility consistency (C4)

A single dock panel of the controller, with its checkable action.
`userToggle` is a click on the action (Qt toggles the checked state
before the handler runs); on an uninstantiated panel the handler runs
the same six-step construction sequence as above, and `failAt = some k`
means step `k` raises (`none`: success).  `hostSetVisible` is a
host-originated visibility change such as the user dragging the dock
closed.  Every `show`/`hide`/host change fires `visibilityChanged`,
whose handler (`_on_sample_visibility_changed` /
`_on_settings_visibility_changed`) copies the new visibility onto the
action's checked state. -/

structure ComboBox where
  items : List (String × Option String)
  currentIndex : Int
deriving DecidableEq

def ComboBox.clear (_ : ComboBox) : ComboBox :=
  { items := [], currentIndex := -1 }

def ComboBox.addItem (c : ComboBox) (text : String) (data : Option String) :
    ComboBox :=
  { items := c.items ++ [(text, data)],
    currentIndex := if c.currentIndex = -1 then 0 else c.currentIndex }

def ComboBox.currentData (c : ComboBox) : Option String :=
  if c.currentIndex < 0 then none
  else
    match c.items.get? c.currentIndex.toNat with
    | some item => item.2
    | none => none

/-- `SampleDockWidget._populate_layers`: clear the combo box, insert the
sentinel entry, then one entry per loaded layer with the layer's name
as text and its id as data.  `layers` is the current host layer
snapshot as (id, name) pairs, in `mapLayers().values()` order. -/
def _populate_layers (layers : List (String × String)) (c : ComboBox) :
    ComboBox :=
  let c := c.clear
  let c := c.addItem "-- Select a layer --" none
  layers.foldl (fun acc l => acc.addItem l.2 (some l.1)) c

lemma populate_foldl_aux (xs : List (String × String)) (c : ComboBox)
    (h : ¬ c.currentIndex = -1) :
    (xs.foldl (fun acc l => acc.addItem l.2 (some l.1)) c).items =
        c.items ++ xs.map (fun l => (l.2, some l.1)) ∧
    (xs.foldl (fun acc l => acc.addItem l.2 (some l.1)) c).currentIndex =
        c.currentIndex := by
  induction xs generalizing c with
  | nil => simp
  | cons x rest ih =>
      have hx : (c.addItem x.2 (some x.1)).currentIndex = c.currentIndex := by
        simp [ComboBox.addItem, h]
      have hx2 : ¬ (c.addItem x.2 (some x.1)).currentIndex = -1 := by
        rw [hx]; exact h
      obtain ⟨hi, hc⟩ := ih (c.addItem x.2 (some x.1)) hx2
      refine ⟨?_, by rw [List.foldl_cons, hc, hx]⟩
      rw [List.foldl_cons, hi]
      simp [ComboBox.addItem]

/-- Full description of a `_populate_layers` rebuild, shared by the
sample-panel claims. -/
lemma populate_layers_spec (layers : List (String × String)) (c : ComboBox) :
    (_populate_layers layers c).items =
        ("-- Select a layer --", none) ::
          layers.map (fun l => (l.2, some l.1)) ∧
    (_populate_layers layers c).currentIndex = 0 ∧
    (_populate_layers layers c).items.length = layers.length + 1 ∧
    (_populate_layers layers c).currentData = none := by
  have hstart :
      ((c.clear).addItem "-- Select a layer --" none) =
        { items := [("-- Select a layer --", none)], currentIndex := 0 } := by
    simp [ComboBox.clear, ComboBox.addItem]
  obtain ⟨hi, hc⟩ := populate_foldl_aux layers
    ((c.clear).addItem "-- Select a layer --" none) (by rw [hstart]; decide)
  rw [hstart] at hi hc
  have hitems : (_populate_layers layers c).items =
      ("-- Select a layer --", none) :: layers.map (fun l => (l.2, some l.1)) := by
    simp only [_populate_layers]
    rw [hstart, hi]
    rfl
  have hcur : (_populate_layers layers c).currentIndex = 0 := by
    simp only [_populate_layers]
    rw [hstart, hc]
  refine ⟨hitems, hcur, by rw [hitems]; simp, ?_⟩
  unfold ComboBox.currentData
  rw [hcur, hitems]
  simp

/-- Claim C6: after every rebuild of the layer-selection list (the same
`_populate_layers` runs at construction and on every layersAdded /
layersRemoved notification), the list holds exactly one sentinel entry
first plus one entry per loaded layer, and the selection is reset to
the sentinel (index 0, whose associated data is `None`). -/
theorem c6_populate_sentinel (layers : List (String × String)) (c : ComboBox) :
    (_populate_layers layers c).items =
        ("-- Select a layer --", none) ::
          layers.map (fun l => (l.2, some l.1)) ∧
    (_populate_layers layers c).currentIndex = 0 ∧
    (_populate_layers layers c).items.length = layers.length + 1 ∧
    (_populate_layers layers c).currentData = none :=
  populate_layers_spec layers c

/-! ### `SampleDockWidget._run_action`

Python string-formatting helpers: `str` of a Bool prints `True` or
`False`, and the `x or fallback` idiom yields the fallback when `x`
is `None` or the empty string. -/

def pyBoolRepr : Bool → String
  | true => "True"
  | false => "False"

def pyOrElse (s fallback : String) : String :=
  if s = "" then fallback else s

def pyLayerIdRepr : Option String → String
  | none => "None"
  | some s => if s = "" then "None" else s

structure SampleInput where
  layerData : Option String
  text : String
  number : Int
  option : Bool
  filePath : String
deriving DecidableEq

structure RunResult where
  statusDuring : String × String
  statusAfter : String × String
  reportLines : List String
  notifiedSuccess : Bool
  progressVisibleAfter : Bool
deriving DecidableEq

/-- `SampleDockWidget._run_action`: reads the current field values,
sets the status label to `Processing...` in blue while working, builds
the fixed-format report, joins it into the output box, then sets the
status label to `Completed` in green, hides the progress bar again and
pushes a one-shot success notification.  It is a total function: no
step can fail. -/
def _run_action (inp : SampleInput) : RunResult where
  statusDuring := ("Processing...", "color: blue; font-size: 10px;")
  statusAfter := ("Completed", "color: green; font-size: 10px;")
  reportLines :=
    ["=== Sample Action Results ===",
      "",
      "Selected Layer ID: " ++ pyLayerIdRepr inp.layerData,
      "Text Input: " ++ pyOrElse inp.text "(empty)",
      "Number Value: " ++ toString inp.number,
      "Option Enabled: " ++ pyBoolRepr inp.option,
      "File Path: " ++ pyOrElse inp.filePath "(none)",
      "",
      "Action completed successfully!"]
  notifiedSuccess := true
  progressVisibleAfter := false

/-- The concrete run of the spec's sample scenario: sentinel layer
selection, text `abc`, number 42, option checked, no file chosen. -/
def sampleScenario : SampleInput :=
  { layerData := none, text := "abc", number := 42, option := true,
    filePath := "" }

/-- Counterexample to claim C7 as stated: during the run the status
indicator text is `Processing...`, not `Processing`. -/
theorem c7_status_text_counterexample :
    (_run_action sampleScenario).statusDuring.1 = "Processing..." ∧
    ¬ (_run_action sampleScenario).statusDuring.1 = "Processing" := by
  decide

/-- Claim C7 as amended: `run()` on the sample panel always succeeds
(it is a total function that always pushes the success notification),
sets the status indicator to `Processing...` (blue) during the run and
`Completed` (green) after, and with no layers loaded (sentinel entry
only and selected), text `abc`, number 42 and option checked its report
contains the literal lines `Text Input: abc`, `Number Value: 42` and
`Option Enabled: True`. -/
theorem c7_run_report_amended :
    (∀ inp : SampleInput,
      (_run_action inp).statusDuring = ("Processing...", "color: blue; font-size: 10px;") ∧
      (_run_action inp).statusAfter = ("Completed", "color: green; font-size: 10px;") ∧
      (_run_action inp).notifiedSuccess = true) ∧
    (∀ c : ComboBox, (_populate_layers [] c).items.length = 1 ∧
      (_populate_layers [] c).currentData = none) ∧
    "Text Input: abc" ∈ (_run_action sampleScenario).reportLines ∧
    "Number Value: 42" ∈ (_run_action sampleScenario).reportLines ∧
    "Option Enabled: True" ∈ (_run_action sampleScenario).reportLines := by
  refine ⟨fun inp => ⟨rfl, rfl, rfl⟩, fun c => ?_, ?_, ?_, ?_⟩
  · obtain ⟨-, -, hlen, hdata⟩ := populate_layers_spec [] c
    exact ⟨hlen, hdata⟩
  · decide
  · decide
  · decide

/-- Claim C10: empty or unset fields are rendered with fixed
placeholders — with the sentinel selected (layer data `none`) the layer
line is `Selected Layer ID: None`, with empty text the text line is
`Text Input: (empty)`, and with no file chosen the file line is
`File Path: (none)`. -/
theorem c10_run_placeholders (n : Int) (b : Bool) (t f : String) :
    (_run_action ⟨none, "", n, b, ""⟩).reportLines.get? 2 =
      some "Selected Layer ID: None" ∧
    (_run_action ⟨none, "", n, b, f⟩).reportLines.get? 3 =
      some "Text Input: (empty)" ∧
    (_run_action ⟨none, t, n, b, ""⟩).reportLines.get? 6 =
      some "File Path: (none)" := by
  refine ⟨?_, ?_, ?_⟩ <;> simp [_run_action, pyLayerIdRepr, pyOrElse]

/-! ### `SampleDockWidget.closeEvent` (C9)

The panel's subscriptions to the host's `layersAdded` / `layersRemoved`
notifications.  Disconnecting an already-disconnected signal raises
`TypeError` in PyQt; `closeEvent` wraps both `disconnect` calls in one
`try` whose `except (RuntimeError, TypeError)` swallows exactly those
two error kinds, then accepts the close event. -/

structure LayerSignals where
  addedConnected : Bool
  removedConnected : Bool
deriving DecidableEq

/-- The `try` body: disconnect `layersAdded`, then `layersRemoved`;
the first raise aborts the rest of the body, and state changes made
before the raise persist. -/
def closeEventBody (s : LayerSignals) : LayerSignals × Option PyErr :=
  if s.addedConnected then
    let s := { s with addedConnected := false }
    if s.removedConnected then ({ s with removedConnected := false }, none)
    else (s, some .typeError)
  else (s, some .typeError)

def isCaughtByCloseEvent : PyErr → Bool
  | .typeError => true
  | .runtimeError => true
  | .attributeError => false

structure CloseResult where
  signals : LayerSignals
  accepted : Bool
  uncaught : Option PyErr
deriving DecidableEq

def closeEvent (s : LayerSignals) : CloseResult :=
  match closeEventBody s with
  | (s2, none) => { signals := s2, accepted := true, uncaught := none }
  | (s2, some e) =>
      if isCaughtByCloseEvent e then
        { signals := s2, accepted := true, uncaught := none }
      else
        { signals := s2, accepted := false, uncaught := some e }

/-- Claim C9: closing the sample panel unsubscribes it from the
layer-change notifications, and a close when already unsubscribed (the
double disconnect raising `TypeError`) does not propagate any error:
whatever the subscription state, `closeEvent` accepts the event and
lets no exception escape, and a first close from the fully subscribed
state leaves both signals disconnected. -/
theorem c9_close_unsubscribe_safe :
    (∀ s : LayerSignals,
      (closeEvent s).uncaught = none ∧ (closeEvent s).accepted = true) ∧
    (closeEvent ⟨true, true⟩).signals = ⟨false, false⟩ ∧
    (closeEvent (closeEvent ⟨true, true⟩).signals).uncaught = none := by
  refine ⟨fun s => ?_, rfl, rfl⟩
  rcases s with ⟨a, r⟩
  cases a <;> cases r <;> exact ⟨rfl, rfl⟩

/-! ## `PluginTemplate.show_about` (C8)

The about dialog reads the plugin version by reading `metadata.txt`
(modelled as an `Except` read result: `.error` when opening or reading
the file raises) and scanning its content with the multiline regular
expression `^version=(.+)$` — the first line that starts with
`version=` and has a non-empty rest — then stripping surrounding
whitespace from the captured value.  On a read failure it shows a
warning dialog and keeps the `Unknown` placeholder. -/

def pySpaceChar (c : Char) : Bool :=
  c = ' ' || c = '\t' || c = '\n' || c = '\r' || c = '\x0b' || c = '\x0c'

def pyStrip (s : String) : String :=
  let l := s.toList.dropWhile pySpaceChar
  String.mk ((l.reverse.dropWhile pySpaceChar).reverse)

def splitLinesAux : List Char → List Char → List String
  | [], acc => [String.mk acc.reverse]
  | ch :: rest, acc =>
      if ch = '\n' then String.mk acc.reverse :: splitLinesAux rest []
      else splitLinesAux rest (ch :: acc)

/-- The lines of the file content, as Python text-mode reading and the
`re.MULTILINE` anchors see them. -/
def pyLines (s : String) : List String :=
  splitLinesAux s.toList []

def findVersionValue (content : String) : Option String :=
  (pyLines content).findSome? fun line =>
    if line.toList.take 8 = "version=".toList && line.toList.drop 8 != [] then
      some (String.mk (line.toList.drop 8))
    else none

structure AboutResult where
  version : String
  warningShown : Bool
deriving DecidableEq

def show_about (readMetadata : Except String String) : AboutResult :=
  match readMetadata with
  | .error _ => { version := "Unknown", warningShown := true }
  | .ok content =>
      { version :=
          match findVersionValue content with
          | some v => pyStrip v
          | none => "Unknown",
        warningShown := false }

/-- Claim C8: `show_about` obtains the displayed version by scanning
the metadata file for a `version=<value>` line; on every execution in
which the read fails it shows a warning (the non-blocking dialog
primitive of the spec's host-interface taxonomy, as opposed to the
blocking error dialog) and displays the version as `Unknown`.  On a
successful read no warning is shown, a `version=` line yields its
stripped value, and a content without such a line also falls back to
`Unknown` (without warning). -/
theorem c8_show_about_version (e content : String) :
    (show_about (Except.error e)).version = "Unknown" ∧
    (show_about (Except.error e)).warningShown = true ∧
    (show_about (Except.ok content)).warningShown = false ∧
    (show_about (Except.ok "name=Plugin Template\nversion=1.0.2 \nauthor=A")).version
      = "1.0.2" ∧
    (show_about (Except.ok "name=Plugin Template\nversion=\n")).version
      = "Unknown" := by
  refine ⟨rfl, rfl, rfl, ?_, ?_⟩ <;> decide
